import Mathlib

/-!
Verification of the message-classification subsystem of the support platform
(`routes/classifier_routes.py`): the text normalizer `_normalize_text`, the
rule classifier `fallback_classify`, and the orchestrating endpoint
`classify_message`, together with the validation/coercion applied to the
remote (language-model) tier's parsed JSON output.

Modelling conventions:
* Python floats are modelled as exact rationals (`ℚ`); every constant the code
  uses (0.5, 0.85, 0.9, 0.98, the clamp bounds 0.0 and 1.0) is order-faithful.
* Parsed JSON is the inductive `JValue`; `json.loads` keeps the last of
  duplicate object keys, so object lookup takes the last binding.
* The remote call is modelled at its observable boundary: it is absent,
  raises, yields text that fails JSON parsing, or yields a parsed `JValue`.
* Text is `List Char`.  Unicode NFKD decomposition and `str.lower` are
  modelled per-character on a representative character set (identity beyond
  it); `str()` of non-string JSON values is modelled by an executable
  rendering whose exact digits are irrelevant to every property proved here.
-/

namespace Classifier

/-- Parsed JSON values, the output type of `json.loads`. -/
inductive JValue where
  | null
  | bool (b : Bool)
  | num (q : ℚ)
  | str (s : String)
  | arr (elems : List JValue)
  | obj (fields : List (String × JValue))

/-- `dict.get k` on a parsed JSON object: `json.loads` keeps the last of
duplicate keys, so the last binding wins. -/
def jGet (fields : List (String × JValue)) (k : String) : Option JValue :=
  ((fields.reverse).find? (fun p => p.1 == k)).map (fun p => p.2)

/-- Python truthiness (`bool(v)`) of a parsed JSON value: `None`, `False`,
zero, and empty strings/lists/dicts are falsy; everything else is truthy. -/
def jTruthy : JValue → Bool
  | .null => false
  | .bool b => b
  | .num q => if q = 0 then false else true
  | .str s => if s = "" then false else true
  | .arr [] => false
  | .arr (_ :: _) => true
  | .obj [] => false
  | .obj (_ :: _) => true

/-- Is the value a JSON object (a Python `dict`)? -/
def isObj : JValue → Bool
  | .obj _ => true
  | _ => false

/-- Is the value a JSON string? -/
def isStr : JValue → Bool
  | .str _ => true
  | _ => false

/-- Is the value a JSON number? -/
def isNum : JValue → Bool
  | .num _ => true
  | _ => false

/-- Is the value a JSON boolean? -/
def isBool : JValue → Bool
  | .bool _ => true
  | _ => false

/-- Is the value a JSON array (a Python `list`)? -/
def isArr : JValue → Bool
  | .arr _ => true
  | _ => false

/-- Python `min(a, b)`: returns `b` exactly when `b < a`. -/
def pyMin (a b : ℚ) : ℚ := if b < a then b else a

/-- Python `max(a, b)`: returns `b` exactly when `a < b`. -/
def pyMax (a b : ℚ) : ℚ := if a < b then b else a

/-- Rendering of a rational as Python renders the corresponding number;
only ever inspected through emptiness, so the digits are immaterial. -/
def numRender (q : ℚ) : String :=
  if q.den = 1 then toString q.num else toString q.num ++ "/" ++ toString q.den

/-- Python `repr` of a parsed JSON value (used by `str` on non-strings);
string escaping subtleties are immaterial here. -/
def pyRepr : JValue → String
  | .null => "None"
  | .bool b => if b then "True" else "False"
  | .num q => numRender q
  | .str s => "<" ++ s ++ ">"
  | .arr xs =>
      "[" ++ String.intercalate ", "
        (xs.attach.map (fun x =>
          match x with
          | ⟨v, _⟩ => pyRepr v)) ++ "]"
  | .obj fs =>
      "\x7b" ++
        String.intercalate ", "
          (fs.attach.map (fun x =>
            match x with
            | ⟨p, _⟩ => "<" ++ p.1 ++ ">: " ++ pyRepr p.2)) ++
      "\x7d"
decreasing_by
  · rename_i h
    have := List.sizeOf_lt_of_mem h
    simp only [JValue.arr.sizeOf_spec]
    omega
  · rename_i h
    have h1 := List.sizeOf_lt_of_mem h
    have h2 : sizeOf p.2 < sizeOf p := by
      cases p
      simp
    simp only [JValue.obj.sizeOf_spec]
    omega

/-- Python `str(v)` of a parsed JSON value: strings pass through unchanged,
anything else is rendered (never empty). -/
def pyStr : JValue → String
  | .str s => s
  | v => pyRepr v

/-- Python `str.strip()`: drop leading and trailing whitespace. -/
def pyStrip (s : String) : String :=
  ⟨((s.toList.dropWhile Char.isWhitespace).reverse.dropWhile
      Char.isWhitespace).reverse⟩

/-! ### Text normalizer (`_normalize_text`) -/

/-- The ASCII apostrophe U+0027. -/
def apos : Char := Char.ofNat 39

/-- The typographic (curly) right single quotation mark U+2019. -/
def rsquo : Char := Char.ofNat 0x2019

/-- Per-character model of `unicodedata.normalize("NFKD", ·)`: the
compatibility decomposition mapping on a representative character set
(fullwidth apostrophe U+FF07, e-acute U+00E9/U+00C9, the fi ligature
U+FB01), identity elsewhere.  U+2019 has no decomposition, so NFKD leaves
curly apostrophes untouched, as in the Unicode character database. -/
def nfkdChar (c : Char) : List Char :=
  if c = Char.ofNat 0xFF07 then [apos]
  else if c = Char.ofNat 0xE9 then [Char.ofNat 0x65, Char.ofNat 0x301]
  else if c = Char.ofNat 0xC9 then [Char.ofNat 0x45, Char.ofNat 0x301]
  else if c = Char.ofNat 0xFB01 then [Char.ofNat 0x66, Char.ofNat 0x69]
  else [c]

/-- Per-character model of `str.lower` (ASCII range; cased characters the
classifier's patterns can see are ASCII once decomposed). -/
def lowerChar (c : Char) : Char :=
  if 65 ≤ c.toNat ∧ c.toNat ≤ 90 then Char.ofNat (c.toNat + 32) else c

/-- The final step of `_normalize_text`, `text.replace("'", "'")`: as
written in the source, both arguments are the ASCII apostrophe U+0027, so
the call replaces the plain apostrophe with itself. -/
def replaceApos (c : Char) : Char :=
  if c = apos then apos else c

/-- `_normalize_text(msg)`: NFKD-decompose, lowercase, then the
apostrophe `replace` call, in the source's order.  (`str(msg or "")` is
the identity on the strings this model ranges over.) -/
def _normalize_text (msg : List Char) : List Char :=
  ((msg.flatMap nfkdChar).map lowerChar).map replaceApos

/-! ### Regular-expression engine

The four classification patterns are `re.compile(r"\b(...)\b", re.IGNORECASE)`
alternations of literal words and phrases with small optional groups.  The
embedding interprets a pattern syntax tree over `List Char` directly:
`reMatch` enumerates the suffixes left after matching a prefix, and
`searchWB` is `PATTERN.search(text) is not None` for `\b(...)\b` patterns —
a match must start and end on a word boundary.  Patterns are written
lowercase; the searched text has been lowercased by `_normalize_text`,
which is what `re.IGNORECASE` amounts to on these patterns. -/

/-- Pattern syntax: empty string, literal character, single character from
a class, zero-or-more characters from a class (`\s*`), concatenation,
alternation, and an optional group (`(...)?\`). -/
inductive RE where
  | eps
  | chr (c : Char)
  | cls (p : Char → Bool)
  | clsStar (p : Char → Bool)
  | cat (a b : RE)
  | alt (a b : RE)
  | opt (a : RE)

/-- Suffixes obtainable by stripping zero or more characters satisfying
`p` (the matcher for `\s*`-style subpatterns). -/
def stripAll (p : Char → Bool) : List Char → List (List Char)
  | [] => [[]]
  | c :: s => (c :: s) :: (if p c then stripAll p s else [])

/-- All suffixes left over after the pattern matches some prefix of the
input (nondeterministic regular-expression matching). -/
def reMatch : RE → List Char → List (List Char)
  | .eps, s => [s]
  | .chr _, [] => []
  | .chr c, d :: s => if d = c then [s] else []
  | .cls _, [] => []
  | .cls p, d :: s => if p d then [s] else []
  | .clsStar p, s => stripAll p s
  | .cat a b, s => (reMatch a s).flatMap (reMatch b)
  | .alt a b, s => reMatch a s ++ reMatch b s
  | .opt a, s => s :: reMatch a s

/-- Model of the regex word character class `\w` (letters, digits,
underscore) on the character set in play. -/
def isWordChar (c : Char) : Bool := c.isAlphanum || c = Char.ofNat 95

/-- Wordness of the character at a position, `false` beyond the ends. -/
def isWordAt (t : List Char) (i : Nat) : Bool :=
  match t.get? i with
  | some c => isWordChar c
  | none => false

/-- `\b` holds at position `i` of `t`: the wordness of the characters on
the two sides of the position differs (positions `0` and `t.length` have
a non-word outside). -/
def boundaryAt (t : List Char) (i : Nat) : Bool :=
  match i with
  | 0 => isWordAt t 0
  | j + 1 => isWordAt t j != isWordAt t (j + 1)

/-- `re.search` for a `\b(...)\b` pattern, as a Boolean: some match of the
alternation starts at a word boundary and ends at a word boundary. -/
def searchWB (re : RE) (t : List Char) : Bool :=
  (List.range (t.length + 1)).any (fun i =>
    boundaryAt t i &&
      (reMatch re (t.drop i)).any (fun suf => boundaryAt t (t.length - suf.length)))

/-- Concatenation of literal characters. -/
def lit : List Char → RE
  | [] => .eps
  | c :: cs => .cat (.chr c) (lit cs)

/-- Literal word or phrase given as a string. -/
def litS (s : String) : RE := lit s.toList

/-- Alternation of a list of patterns (`a|b|...`). -/
def altL : List RE → RE
  | [] => .eps
  | [r] => r
  | r :: rs => .alt r (altL rs)

/-- The character class `[-\s]` (dash or whitespace). -/
def dashOrSpace (c : Char) : Bool := c = Char.ofNat 45 || c.isWhitespace

/-- The character class `\s`. -/
def spaceClass (c : Char) : Bool := c.isWhitespace

/-- `CRISIS_RE`: `\b(suicid(e|al)|end(ing)? my life|kill myself|self[-\s]?harm|
harm myself|hurt myself|overdose|i (want|plan) to die|i don't want to live|
i dont want to live)\b` (the apostrophe in the source is ASCII U+0027). -/
def CRISIS_RE : RE := altL
  [ .cat (litS "suicid") (.alt (litS "e") (litS "al"))
  , .cat (litS "end") (.cat (.opt (litS "ing")) (litS " my life"))
  , litS "kill myself"
  , .cat (litS "self") (.cat (.opt (.cls dashOrSpace)) (litS "harm"))
  , litS "harm myself"
  , litS "hurt myself"
  , litS "overdose"
  , .cat (litS "i ") (.cat (.alt (litS "want") (litS "plan")) (litS " to die"))
  , lit ("i don".toList ++ [apos] ++ "t want to live".toList)
  , litS "i dont want to live" ]

/-- `IDC_RE`: `\b(racist|racial|racism|sexist|sexism|homophob(ic|ia)|
transphob(ic|ia)|xenophob(ic|ia)|bully|bullied|bullying|harass(ed|ment)?|
discriminat(e|ion|ed)|slur|hate\s*(speech|crime)|bigot(ed|ry)?)\b`. -/
def IDC_RE : RE := altL
  [ litS "racist", litS "racial", litS "racism", litS "sexist", litS "sexism"
  , .cat (litS "homophob") (.alt (litS "ic") (litS "ia"))
  , .cat (litS "transphob") (.alt (litS "ic") (litS "ia"))
  , .cat (litS "xenophob") (.alt (litS "ic") (litS "ia"))
  , litS "bully", litS "bullied", litS "bullying"
  , .cat (litS "harass") (.opt (.alt (litS "ed") (litS "ment")))
  , .cat (litS "discriminat") (altL [litS "e", litS "ion", litS "ed"])
  , litS "slur"
  , .cat (litS "hate") (.cat (.clsStar spaceClass) (.alt (litS "speech") (litS "crime")))
  , .cat (litS "bigot") (.opt (.alt (litS "ed") (litS "ry"))) ]

/-- `OPEN_RE`: `\b(assignment(s)?|homework|project(s)?|report(s)?|grade(s)?|
mark(s)?|exam(s)?|quiz(zes)?|midterm(s)?|final(s)?|deadline(s)?|extension(s)?|
professor|instructor|teacher|ta\b|course(work)?|syllabus|submit|submission)\b`
(the inner `\b` after `ta` coincides with the closing `\b`). -/
def OPEN_RE : RE := altL
  [ .cat (litS "assignment") (.opt (litS "s"))
  , litS "homework"
  , .cat (litS "project") (.opt (litS "s"))
  , .cat (litS "report") (.opt (litS "s"))
  , .cat (litS "grade") (.opt (litS "s"))
  , .cat (litS "mark") (.opt (litS "s"))
  , .cat (litS "exam") (.opt (litS "s"))
  , .cat (litS "quiz") (.opt (litS "zes"))
  , .cat (litS "midterm") (.opt (litS "s"))
  , .cat (litS "final") (.opt (litS "s"))
  , .cat (litS "deadline") (.opt (litS "s"))
  , .cat (litS "extension") (.opt (litS "s"))
  , litS "professor", litS "instructor", litS "teacher"
  , litS "ta"
  , .cat (litS "course") (.opt (litS "work"))
  , litS "syllabus", litS "submit", litS "submission" ]

/-- `COUNSEL_RE`: `\b(alone|lonely|isolated|anxious|anxiety|stress(ed|ful)?|
depress(ed|ion|ive)?|panic|overwhelmed|burn( |-)?out|can't focus|cant focus|
can'?t focus|sad|cry(ing)?|hopeless|insomnia|can't sleep|cant sleep|
can'?t sleep|sleepless)\b` (apostrophes in the source are ASCII U+0027). -/
def COUNSEL_RE : RE := altL
  [ litS "alone", litS "lonely", litS "isolated", litS "anxious", litS "anxiety"
  , .cat (litS "stress") (.opt (.alt (litS "ed") (litS "ful")))
  , .cat (litS "depress") (.opt (altL [litS "ed", litS "ion", litS "ive"]))
  , litS "panic", litS "overwhelmed"
  , .cat (litS "burn") (.cat (.opt (.alt (litS " ") (litS "-"))) (litS "out"))
  , lit ("can".toList ++ [apos] ++ "t focus".toList)
  , litS "cant focus"
  , .cat (litS "can") (.cat (.opt (.chr apos)) (litS "t focus"))
  , litS "sad"
  , .cat (litS "cry") (.opt (litS "ing"))
  , litS "hopeless", litS "insomnia"
  , lit ("can".toList ++ [apos] ++ "t sleep".toList)
  , litS "cant sleep"
  , .cat (litS "can") (.cat (.opt (.chr apos)) (litS "t sleep"))
  , litS "sleepless" ]

/-! ### Classification results and the rule classifier -/

/-- The JSON result shape `{department, confidence, reasons, crisis}` both
tiers produce.  `department` is the string the code carries around;
`reasons` elements stay `JValue` because the validation of the remote tier
slices the list without inspecting its elements. -/
structure ClassificationResult where
  department : String
  confidence : ℚ
  reasons : List JValue
  crisis : Bool

/-- `fallback_classify(msg)`: the local rule-based classifier, a strict
first-match-wins chain over the normalized text. -/
def fallback_classify (msg : String) : ClassificationResult :=
  let text := _normalize_text msg.toList
  if searchWB CRISIS_RE text then
    ⟨"COUNSEL", 98/100, [.str "Crisis language detected"], true⟩
  else if searchWB IDC_RE text then
    ⟨"IDC", 9/10, [.str "Identity-based harm / bullying keywords"], false⟩
  else if searchWB OPEN_RE text then
    ⟨"OPEN", 85/100, [.str "Academic / course keywords"], false⟩
  else if searchWB COUNSEL_RE text then
    ⟨"COUNSEL", 85/100, [.str "Emotional distress keywords"], false⟩
  else
    ⟨"OPEN", 1/2, [.str "No strong signals; defaulting to Open Office"], false⟩

/-! ### Orchestrator (`classify_message`) -/

/-- The observable boundary of the remote (OpenAI) tier from inside the
`try` block: the call raises, or its text fails `json.loads`, or it parses
to a JSON value. -/
inductive RemoteResult where
  | raises
  | badJSON
  | parsed (v : JValue)

/-- HTTP-level outcome of the endpoint: 403 for a non-student caller, 400
for a missing message, 200 with a result, or an unhandled exception
propagating out of the handler (a 500 from the framework). -/
inductive HTTPOutcome where
  | forbidden
  | badRequest
  | ok (r : ClassificationResult)
  | serverError

/-- An audit record appended by `save_to_support_tickets` (the timestamp
is not modelled). -/
structure Ticket where
  user_id : String
  message : String
  department : String
  confidence : ℚ
  crisis : Bool

/-- The ticket built from a result (`result.get('crisis', False)`: both
result shapes always carry the `crisis` key). -/
def mkTicket (username message : String) (r : ClassificationResult) : Ticket :=
  ⟨username, message, r.department, r.confidence, r.crisis⟩

/-- Endpoint response: the HTTP outcome plus the tickets recorded during
the call (the recorder is modelled as always available; its internal
failures are swallowed by the code and invisible here). -/
structure ClassifyResponse where
  outcome : HTTPOutcome
  tickets : List Ticket

/-- `data = request.get_json(silent=True) or {}`: an absent or unparseable
body gives `None`, and any falsy parsed body is likewise replaced by the
empty dict. -/
def dataOf (body : Option JValue) : JValue :=
  match body with
  | none => .obj []
  | some v => if jTruthy v then v else .obj []

/-- `str(data.get("message", "")).strip()` (line 153): the message the
endpoint extracts from a parsed JSON object body. -/
def messageOf (fields : List (String × JValue)) : String :=
  pyStrip (pyStr ((jGet fields "message").getD (.str "")))

/-- The validation/coercion of the remote tier's parsed JSON object
(`classify_message` lines 208-230): department whitelist with `"OPEN"`
default, `isinstance`-guarded confidence defaulting and clamping (a Python
`bool` is an `int`, so JSON booleans pass the guard), list-guarded
`reasons[:6]`, truthiness-coerced crisis, and the final
crisis-forces-COUNSEL override. -/
def validateRemote (fields : List (String × JValue)) : ClassificationResult :=
  let department0 : String :=
    match jGet fields "department" with
    | some (.str s) => if s = "IDC" ∨ s = "OPEN" ∨ s = "COUNSEL" then s else "OPEN"
    | _ => "OPEN"
  let confidence : ℚ :=
    match (jGet fields "confidence").getD (.num (1/2)) with
    | .num q => pyMax 0 (pyMin 1 q)
    | .bool b => pyMax 0 (pyMin 1 (if b then 1 else 0))
    | _ => pyMax 0 (pyMin 1 (1/2))
  let reasons : List JValue :=
    match (jGet fields "reasons").getD (.arr []) with
    | .arr xs => xs.take 6
    | _ => []
  let crisis : Bool := jTruthy ((jGet fields "crisis").getD (.bool false))
  { department := if crisis then "COUNSEL" else department0
  , confidence := confidence
  , reasons := reasons
  , crisis := crisis }

/-- The `/api/classify` handler.  Inputs: the caller's role and username
(attached by `token_required`), the parsed request body, and the remote
tier (`none` when `OPENAI_CLIENT` is unconfigured).  `data.get("message")`
on a truthy non-dict body raises an uncaught `AttributeError`; a remote
failure of any kind — including a parsed non-object, whose `.get` raises
inside the `try` — falls back to `fallback_classify`. -/
def classify_message (role username : String) (body : Option JValue)
    (remote : Option RemoteResult) : ClassifyResponse :=
  if role ≠ "student" then ⟨.forbidden, []⟩
  else
    match dataOf body with
    | .obj fields =>
      let message := messageOf fields
      if message = "" then ⟨.badRequest, []⟩
      else
        match remote with
        | none =>
          let r := fallback_classify message
          ⟨.ok r, [mkTicket username message r]⟩
        | some .raises =>
          let r := fallback_classify message
          ⟨.ok r, [mkTicket username message r]⟩
        | some .badJSON =>
          let r := fallback_classify message
          ⟨.ok r, [mkTicket username message r]⟩
        | some (.parsed v) =>
          match v with
          | .obj rf =>
            let r := validateRemote rf
            ⟨.ok r, [mkTicket username message r]⟩
          | _ =>
            let r := fallback_classify message
            ⟨.ok r, [mkTicket username message r]⟩
    | _ => ⟨.serverError, []⟩

/-! ### Lemmas about the normalizer's character maps -/

theorem replaceApos_eq (c : Char) : replaceApos c = c := by
  unfold replaceApos
  split
  · rename_i h
    rw [h]
  · rfl

theorem map_replaceApos (l : List Char) : l.map replaceApos = l := by
  induction l with
  | nil => rfl
  | cons a t ih => simp [replaceApos_eq, ih]

theorem lowerChar_idem (c : Char) : lowerChar (lowerChar c) = lowerChar c := by
  by_cases h : 65 ≤ c.toNat ∧ c.toNat ≤ 90
  · obtain ⟨h1, h2⟩ := h
    have hc : lowerChar c = Char.ofNat (c.toNat + 32) := by
      unfold lowerChar
      exact if_pos ⟨h1, h2⟩
    rw [hc]
    generalize hm : c.toNat = n at h1 h2
    interval_cases n <;> decide
  · have hc : lowerChar c = c := by
      unfold lowerChar
      exact if_neg h
    rw [hc, hc]

theorem nfkdChar_mem (c d : Char) (h : d ∈ nfkdChar c) : nfkdChar d = [d] := by
  unfold nfkdChar at h
  split at h
  · simp at h
    subst h
    decide
  · rename_i hn1
    split at h
    · simp at h
      rcases h with h | h <;> subst h <;> decide
    · rename_i hn2
      split at h
      · simp at h
        rcases h with h | h <;> subst h <;> decide
      · rename_i hn3
        split at h
        · simp at h
          rcases h with h | h <;> subst h <;> decide
        · rename_i hn4
          simp at h
          subst h
          simp [nfkdChar, hn1, hn2, hn3, hn4]

theorem nfkdChar_lowerChar (c : Char) (h : nfkdChar c = [c]) :
    nfkdChar (lowerChar c) = [lowerChar c] := by
  by_cases hb : 65 ≤ c.toNat ∧ c.toNat ≤ 90
  · obtain ⟨h1, h2⟩ := hb
    have hc : lowerChar c = Char.ofNat (c.toNat + 32) := by
      unfold lowerChar
      exact if_pos ⟨h1, h2⟩
    rw [hc]
    generalize hm : c.toNat = n at h1 h2
    interval_cases n <;> decide
  · have hc : lowerChar c = c := by
      unfold lowerChar
      exact if_neg hb
    rw [hc]
    exact h

theorem flatMap_nfkd_of_normal (l : List Char)
    (h : ∀ d ∈ l, nfkdChar (lowerChar d) = [lowerChar d]) :
    (l.map lowerChar).flatMap nfkdChar = l.map lowerChar := by
  induction l with
  | nil => rfl
  | cons a t ih =>
    have ha := h a (by simp)
    have ht := ih (fun d hd => h d (List.mem_cons_of_mem _ hd))
    simp only [List.map_cons, List.flatMap_cons, ha, ht, List.singleton_append]

/-! ### Characterization lemmas for the two tiers and the endpoint -/

theorem fallback_cases (m : String) :
    fallback_classify m = ⟨"COUNSEL", 98/100, [.str "Crisis language detected"], true⟩
  ∨ fallback_classify m = ⟨"IDC", 9/10, [.str "Identity-based harm / bullying keywords"], false⟩
  ∨ fallback_classify m = ⟨"OPEN", 85/100, [.str "Academic / course keywords"], false⟩
  ∨ fallback_classify m = ⟨"COUNSEL", 85/100, [.str "Emotional distress keywords"], false⟩
  ∨ fallback_classify m = ⟨"OPEN", 1/2, [.str "No strong signals; defaulting to Open Office"], false⟩ := by
  unfold fallback_classify
  dsimp only
  split_ifs <;> tauto

theorem validateRemote_crisis (rf : List (String × JValue)) :
    (validateRemote rf).crisis = jTruthy ((jGet rf "crisis").getD (.bool false)) := rfl

theorem validateRemote_department (rf : List (String × JValue)) :
    (validateRemote rf).department =
      if jTruthy ((jGet rf "crisis").getD (.bool false)) then "COUNSEL"
      else
        match jGet rf "department" with
        | some (.str s) => if s = "IDC" ∨ s = "OPEN" ∨ s = "COUNSEL" then s else "OPEN"
        | _ => "OPEN" := rfl

theorem validateRemote_confidence (rf : List (String × JValue)) :
    (validateRemote rf).confidence =
      match (jGet rf "confidence").getD (.num (1/2)) with
      | .num q => pyMax 0 (pyMin 1 q)
      | .bool b => pyMax 0 (pyMin 1 (if b then 1 else 0))
      | _ => pyMax 0 (pyMin 1 (1/2)) := rfl

theorem validateRemote_reasons (rf : List (String × JValue)) :
    (validateRemote rf).reasons =
      match (jGet rf "reasons").getD (.arr []) with
      | .arr xs => xs.take 6
      | _ => [] := rfl

theorem bool_ne_true {b : Bool} (h : b = false) : ¬(b = true) := by
  simp [h]

theorem pyClamp_eval_half : pyMax 0 (pyMin 1 ((1 : ℚ)/2)) = 1/2 := by
  unfold pyMax pyMin
  rw [if_pos (by norm_num), if_pos (by norm_num)]

theorem pyClamp_eval_one : pyMax 0 (pyMin 1 (1 : ℚ)) = 1 := by
  have h1 : pyMin 1 (1 : ℚ) = 1 := by
    unfold pyMin
    rw [if_neg (lt_irrefl 1)]
  rw [h1]
  unfold pyMax
  rw [if_pos (by norm_num : (0 : ℚ) < 1)]

theorem pyClamp_eval_zero : pyMax 0 (pyMin 1 (0 : ℚ)) = 0 := by
  have h1 : pyMin 1 (0 : ℚ) = 0 := by
    unfold pyMin
    rw [if_pos (by norm_num : (0 : ℚ) < 1)]
  rw [h1]
  unfold pyMax
  rw [if_neg (lt_irrefl 0)]

theorem pyClamp_bounds (q : ℚ) :
    0 ≤ pyMax 0 (pyMin 1 q) ∧ pyMax 0 (pyMin 1 q) ≤ 1 := by
  unfold pyMax pyMin
  split_ifs <;> constructor <;> linarith

theorem validateRemote_confidence_bounds (rf : List (String × JValue)) :
    0 ≤ (validateRemote rf).confidence ∧ (validateRemote rf).confidence ≤ 1 := by
  rw [validateRemote_confidence]
  split
  · exact pyClamp_bounds _
  · exact pyClamp_bounds _
  · exact pyClamp_bounds _

theorem fallback_confidence_bounds (m : String) :
    0 ≤ (fallback_classify m).confidence ∧ (fallback_classify m).confidence ≤ 1 := by
  rcases fallback_cases m with h | h | h | h | h <;> rw [h] <;> norm_num

theorem fallback_department_closed (m : String) :
    (fallback_classify m).department = "IDC" ∨ (fallback_classify m).department = "OPEN"
      ∨ (fallback_classify m).department = "COUNSEL" := by
  rcases fallback_cases m with h | h | h | h | h <;> rw [h] <;> simp

theorem validateRemote_department_closed (rf : List (String × JValue)) :
    (validateRemote rf).department = "IDC" ∨ (validateRemote rf).department = "OPEN"
      ∨ (validateRemote rf).department = "COUNSEL" := by
  rw [validateRemote_department]
  split
  · simp
  · split
    · rename_i s _
      split
      · rename_i hs
        rcases hs with hs | hs | hs <;> rw [hs] <;> simp
      · simp
    · simp

theorem fallback_crisis_counsel (m : String)
    (h : (fallback_classify m).crisis = true) :
    (fallback_classify m).department = "COUNSEL" := by
  rcases fallback_cases m with hc | hc | hc | hc | hc <;> rw [hc] <;> rw [hc] at h <;> simp_all

theorem validateRemote_crisis_counsel (rf : List (String × JValue))
    (h : (validateRemote rf).crisis = true) :
    (validateRemote rf).department = "COUNSEL" := by
  rw [validateRemote_crisis] at h
  rw [validateRemote_department]
  simp [h]

theorem fallback_reasons_ok (m : String) :
    (fallback_classify m).reasons.length ≤ 6
      ∧ (fallback_classify m).reasons.all isStr = true := by
  rcases fallback_cases m with h | h | h | h | h <;> rw [h] <;> exact ⟨by simp, rfl⟩

theorem validateRemote_reasons_le (rf : List (String × JValue)) :
    (validateRemote rf).reasons.length ≤ 6 := by
  rw [validateRemote_reasons]
  split
  · simp [List.length_take]
  · simp

theorem respOk_inj {a b : ClassificationResult} {t1 t2 : List Ticket}
    (h : (⟨.ok a, t1⟩ : ClassifyResponse) = ⟨.ok b, t2⟩) : a = b := by
  injection h with h1 _
  injection h1

theorem classify_forbidden (role u : String) (body : Option JValue)
    (remote : Option RemoteResult) (h : role ≠ "student") :
    classify_message role u body remote = ⟨.forbidden, []⟩ := by
  unfold classify_message
  rw [if_pos h]

theorem classify_server_error (u : String) (body : Option JValue)
    (remote : Option RemoteResult) (h : isObj (dataOf body) = false) :
    classify_message "student" u body remote = ⟨.serverError, []⟩ := by
  unfold classify_message
  rw [if_neg (by simp)]
  rcases hd : dataOf body with _ | b | q | s | xs | fs
  all_goals simp_all [isObj]

theorem classify_bad_request (u : String) (body : Option JValue)
    (remote : Option RemoteResult) (fields : List (String × JValue))
    (hb : dataOf body = .obj fields) (hm : messageOf fields = "") :
    classify_message "student" u body remote = ⟨.badRequest, []⟩ := by
  unfold classify_message
  rw [if_neg (by simp), hb]
  dsimp only
  rw [if_pos hm]

theorem classify_fallback_route (u : String) (body : Option JValue)
    (remote : Option RemoteResult) (fields : List (String × JValue))
    (hb : dataOf body = .obj fields) (hm : messageOf fields ≠ "")
    (hr : remote = none ∨ remote = some .raises ∨ remote = some .badJSON
        ∨ ∃ v, remote = some (.parsed v) ∧ isObj v = false) :
    classify_message "student" u body remote =
      ⟨.ok (fallback_classify (messageOf fields)),
        [mkTicket u (messageOf fields) (fallback_classify (messageOf fields))]⟩ := by
  unfold classify_message
  rw [if_neg (by simp), hb]
  dsimp only
  rw [if_neg hm]
  rcases hr with h | h | h | ⟨v, h, hv⟩ <;> rw [h]
  rcases v with _ | b | q | s | xs | rf <;> simp_all [isObj]

theorem classify_remote_route (u : String) (body : Option JValue)
    (fields rf : List (String × JValue))
    (hb : dataOf body = .obj fields) (hm : messageOf fields ≠ "") :
    classify_message "student" u body (some (.parsed (.obj rf))) =
      ⟨.ok (validateRemote rf), [mkTicket u (messageOf fields) (validateRemote rf)]⟩ := by
  unfold classify_message
  rw [if_neg (by simp), hb]
  dsimp only
  rw [if_neg hm]

theorem classify_ok_cases (role u : String) (body : Option JValue)
    (remote : Option RemoteResult) (r : ClassificationResult) (tks : List Ticket)
    (h : classify_message role u body remote = ⟨.ok r, tks⟩) :
    (∃ m, r = fallback_classify m) ∨ (∃ rf, r = validateRemote rf) := by
  unfold classify_message at h
  split at h
  · simp at h
  · split at h
    · dsimp only at h
      split at h
      · simp at h
      · split at h <;>
          first
            | exact Or.inl ⟨_, (respOk_inj h).symm⟩
            | (split at h <;>
                first
                  | exact Or.inr ⟨_, (respOk_inj h).symm⟩
                  | exact Or.inl ⟨_, (respOk_inj h).symm⟩)
    · simp at h

theorem isObj_iff (v : JValue) : isObj v = true ↔ ∃ fs, v = .obj fs := by
  cases v <;> simp [isObj]

theorem classify_failure_eq_none (role u : String) (body : Option JValue)
    (remote : Option RemoteResult)
    (hfail : remote = some .raises ∨ remote = some .badJSON
        ∨ ∃ v, remote = some (.parsed v) ∧ isObj v = false) :
    classify_message role u body remote = classify_message role u body none := by
  by_cases hr : role = "student"
  · subst hr
    by_cases ho : isObj (dataOf body) = true
    · rcases (isObj_iff _).mp ho with ⟨fields, hb⟩
      by_cases hm : messageOf fields = ""
      · rw [classify_bad_request u body remote fields hb hm,
            classify_bad_request u body none fields hb hm]
      · rw [classify_fallback_route u body remote fields hb hm (by tauto),
            classify_fallback_route u body none fields hb hm (Or.inl rfl)]
    · have ho2 : isObj (dataOf body) = false := by simpa using ho
      rw [classify_server_error u body remote ho2, classify_server_error u body none ho2]
  · rw [classify_forbidden role u body remote hr, classify_forbidden role u body none hr]

theorem classify_ok_of_nonempty (u : String) (body : Option JValue)
    (remote : Option RemoteResult) (fields : List (String × JValue))
    (hb : dataOf body = .obj fields) (hm : messageOf fields ≠ "") :
    ∃ r tks, classify_message "student" u body remote = ⟨.ok r, tks⟩ := by
  rcases remote with _ | rr
  · exact ⟨_, _, classify_fallback_route u body none fields hb hm (Or.inl rfl)⟩
  · rcases rr with _ | _ | v
    · exact ⟨_, _, classify_fallback_route u body _ fields hb hm (Or.inr (Or.inl rfl))⟩
    · exact ⟨_, _, classify_fallback_route u body _ fields hb hm (Or.inr (Or.inr (Or.inl rfl)))⟩
    · rcases hv : v with _ | b | q | s | xs | rf
      case obj => exact ⟨_, _, classify_remote_route u body fields rf hb hm⟩
      all_goals
        exact ⟨_, _, classify_fallback_route u body _ fields hb hm
          (Or.inr (Or.inr (Or.inr ⟨v, by rw [hv], by rw [hv]; rfl⟩)))⟩

/-! ### Claims -/

/-- C1 (counterexample): the claimed equivalence `crisis == true ⟺
department == COUNSEL` is false — the rule tier's emotional-distress
branch returns `department = COUNSEL` with `crisis = false` (e.g. for the
message `"i feel lonely"`). -/
theorem C1_counterexample :
    ¬(∀ (role u : String) (body : Option JValue) (remote : Option RemoteResult)
        (r : ClassificationResult) (tks : List Ticket),
        classify_message role u body remote = ⟨.ok r, tks⟩ →
          (r.crisis = true ↔ r.department = "COUNSEL")) := by
  intro hclaim
  have h := hclaim "student" "u" (some (.obj [("message", .str "i feel lonely")])) none
    ⟨"COUNSEL", 85/100, [.str "Emotional distress keywords"], false⟩
    [⟨"u", "i feel lonely", "COUNSEL", 85/100, false⟩] (by rfl)
  simp at h

/-- C1 (amended): for every result returned by the classify operation,
`crisis = true` implies `department = COUNSEL`; no input can produce
`crisis = true` with any other department.  (The converse direction of the
claimed equivalence does not hold.) -/
theorem C1_crisis_forces_counsel (role u : String) (body : Option JValue)
    (remote : Option RemoteResult) (r : ClassificationResult) (tks : List Ticket)
    (h : classify_message role u body remote = ⟨.ok r, tks⟩) (hc : r.crisis = true) :
    r.department = "COUNSEL" := by
  rcases classify_ok_cases role u body remote r tks h with ⟨m, rfl⟩ | ⟨rf, rfl⟩
  · exact fallback_crisis_counsel m hc
  · exact validateRemote_crisis_counsel rf hc

/-- Witness for C1: a crisis message routed through the rule tier. -/
theorem C1_crisis_forces_counsel_witness :
    classify_message "student" "u" (some (.obj [("message", .str "i want to end my life")])) none
        = ⟨.ok ⟨"COUNSEL", 98/100, [.str "Crisis language detected"], true⟩,
            [⟨"u", "i want to end my life", "COUNSEL", 98/100, true⟩]⟩
    ∧ (⟨"COUNSEL", 98/100, [.str "Crisis language detected"], true⟩
        : ClassificationResult).department = "COUNSEL" := by
  refine ⟨by rfl, ?_⟩
  exact C1_crisis_forces_counsel "student" "u"
    (some (.obj [("message", .str "i want to end my life")])) none
    ⟨"COUNSEL", 98/100, [.str "Crisis language detected"], true⟩
    [⟨"u", "i want to end my life", "COUNSEL", 98/100, true⟩] (by rfl) (by rfl)

/-- C9: the text normalizer is idempotent — for every input string `x`,
`_normalize_text (_normalize_text x) = _normalize_text x`. -/
theorem C9_normalize_idempotent (s : List Char) :
    _normalize_text (_normalize_text s) = _normalize_text s := by
  unfold _normalize_text
  simp only [map_replaceApos]
  have hmem : ∀ d ∈ s.flatMap nfkdChar, nfkdChar (lowerChar d) = [lowerChar d] := by
    intro d hd
    rcases List.mem_flatMap.mp hd with ⟨c, _, hdc⟩
    exact nfkdChar_lowerChar d (nfkdChar_mem c d hdc)
  rw [flatMap_nfkd_of_normal _ hmem, List.map_map]
  exact List.map_congr_left (fun d _ => lowerChar_idem d)

/-- C8 (code bug): the source's `text.replace("'", "'")` has the ASCII
apostrophe as both arguments, so a typographic apostrophe U+2019 is NOT
replaced — normalization leaves it in place, and a crisis phrase written
with the curly apostrophe misses `CRISIS_RE` while the same phrase with
the plain apostrophe matches. -/
theorem C8_curly_apostrophe_not_replaced :
    _normalize_text ("i don".toList ++ [rsquo] ++ "t want to live".toList)
        = "i don".toList ++ [rsquo] ++ "t want to live".toList
    ∧ searchWB CRISIS_RE
        (_normalize_text ("i don".toList ++ [rsquo] ++ "t want to live".toList)) = false
    ∧ searchWB CRISIS_RE
        (_normalize_text ("i don".toList ++ [apos] ++ "t want to live".toList)) = true := by
  exact ⟨by decide, by decide, by decide⟩

/-- C2: every returned department lies in the closed set
`{IDC, OPEN, COUNSEL}`; a remote department outside this set (a string not
in the whitelist, or any non-string JSON value) is coerced to `OPEN`, and
on every path a `crisis = true` result carries `department = COUNSEL`. -/
theorem C2_department_closed :
    (∀ (role u : String) (body : Option JValue) (remote : Option RemoteResult)
        (r : ClassificationResult) (tks : List Ticket),
        classify_message role u body remote = ⟨.ok r, tks⟩ →
          (r.department = "IDC" ∨ r.department = "OPEN" ∨ r.department = "COUNSEL")
          ∧ (r.crisis = true → r.department = "COUNSEL"))
    ∧ (∀ (rf : List (String × JValue)) (s : String),
        jGet rf "department" = some (.str s) →
        ¬(s = "IDC" ∨ s = "OPEN" ∨ s = "COUNSEL") →
        (validateRemote rf).department
          = if (validateRemote rf).crisis then "COUNSEL" else "OPEN")
    ∧ (∀ (rf : List (String × JValue)) (v : JValue),
        jGet rf "department" = some v → isStr v = false →
        (validateRemote rf).department
          = if (validateRemote rf).crisis then "COUNSEL" else "OPEN") := by
  refine ⟨?_, ?_, ?_⟩
  · intro role u body remote r tks h
    rcases classify_ok_cases role u body remote r tks h with ⟨m, rfl⟩ | ⟨rf, rfl⟩
    · exact ⟨fallback_department_closed m, fallback_crisis_counsel m⟩
    · exact ⟨validateRemote_department_closed rf, validateRemote_crisis_counsel rf⟩
  · intro rf s hj hs
    rw [validateRemote_department, validateRemote_crisis, hj]
    cases hcr : jTruthy ((jGet rf "crisis").getD (.bool false)) <;> simp [hs]
  · intro rf v hj hv
    rw [validateRemote_department, validateRemote_crisis, hj]
    cases hcr : jTruthy ((jGet rf "crisis").getD (.bool false)) <;>
      rcases v with _ | b | q | s | xs | fs <;> simp_all [isStr]

/-- Witness for C2: a remote result with the out-of-taxonomy department
`"HR"` and no crisis flag is coerced to `OPEN`. -/
theorem C2_department_closed_witness :
    ((("OPEN" : String) = "IDC" ∨ ("OPEN" : String) = "OPEN" ∨ ("OPEN" : String) = "COUNSEL")
      ∧ (false = true → ("OPEN" : String) = "COUNSEL"))
    ∧ (validateRemote [("department", .str "HR")]).department = "OPEN" := by
  constructor
  · have hroute := classify_remote_route "u" (some (.obj [("message", .str "hi")]))
      [("message", .str "hi")] [("department", .str "HR")] (by rfl) (by decide)
    have h := C2_department_closed.1 "student" "u" (some (.obj [("message", .str "hi")]))
      (some (.parsed (.obj [("department", .str "HR")]))) _ _ hroute
    exact h
  · have h := C2_department_closed.2.1 [("department", .str "HR")] "HR" (by rfl) (by simp)
    rw [h]
    rfl

/-- C3: the rule classifier is a strict first-match-wins priority chain
(crisis, then identity/discrimination, then academic, then emotional
distress, then the default), each category yielding its fixed confidence;
in particular a message containing both crisis and academic language
classifies as `COUNSEL` with `crisis = true` and confidence 0.98. -/
theorem C3_priority_chain :
    (∀ m : String, searchWB CRISIS_RE (_normalize_text m.toList) = true →
        fallback_classify m = ⟨"COUNSEL", 98/100, [.str "Crisis language detected"], true⟩)
    ∧ (∀ m : String, searchWB CRISIS_RE (_normalize_text m.toList) = false →
        searchWB IDC_RE (_normalize_text m.toList) = true →
        fallback_classify m = ⟨"IDC", 9/10, [.str "Identity-based harm / bullying keywords"], false⟩)
    ∧ (∀ m : String, searchWB CRISIS_RE (_normalize_text m.toList) = false →
        searchWB IDC_RE (_normalize_text m.toList) = false →
        searchWB OPEN_RE (_normalize_text m.toList) = true →
        fallback_classify m = ⟨"OPEN", 85/100, [.str "Academic / course keywords"], false⟩)
    ∧ (∀ m : String, searchWB CRISIS_RE (_normalize_text m.toList) = false →
        searchWB IDC_RE (_normalize_text m.toList) = false →
        searchWB OPEN_RE (_normalize_text m.toList) = false →
        searchWB COUNSEL_RE (_normalize_text m.toList) = true →
        fallback_classify m = ⟨"COUNSEL", 85/100, [.str "Emotional distress keywords"], false⟩)
    ∧ (∀ m : String, searchWB CRISIS_RE (_normalize_text m.toList) = false →
        searchWB IDC_RE (_normalize_text m.toList) = false →
        searchWB OPEN_RE (_normalize_text m.toList) = false →
        searchWB COUNSEL_RE (_normalize_text m.toList) = false →
        fallback_classify m
          = ⟨"OPEN", 1/2, [.str "No strong signals; defaulting to Open Office"], false⟩)
    ∧ (searchWB CRISIS_RE
          (_normalize_text "I want to end my life because I failed my exam".toList) = true
        ∧ searchWB OPEN_RE
            (_normalize_text "I want to end my life because I failed my exam".toList) = true
        ∧ fallback_classify "I want to end my life because I failed my exam"
            = ⟨"COUNSEL", 98/100, [.str "Crisis language detected"], true⟩) := by
  refine ⟨?_, ?_, ?_, ?_, ?_, by decide, by decide, by rfl⟩
  · intro m h1
    unfold fallback_classify
    dsimp only
    rw [if_pos h1]
  · intro m h1 h2
    unfold fallback_classify
    dsimp only
    rw [if_neg (bool_ne_true h1), if_pos h2]
  · intro m h1 h2 h3
    unfold fallback_classify
    dsimp only
    rw [if_neg (bool_ne_true h1), if_neg (bool_ne_true h2), if_pos h3]
  · intro m h1 h2 h3 h4
    unfold fallback_classify
    dsimp only
    rw [if_neg (bool_ne_true h1), if_neg (bool_ne_true h2), if_neg (bool_ne_true h3),
      if_pos h4]
  · intro m h1 h2 h3 h4
    unfold fallback_classify
    dsimp only
    rw [if_neg (bool_ne_true h1), if_neg (bool_ne_true h2), if_neg (bool_ne_true h3),
      if_neg (bool_ne_true h4)]

/-- Witness for C3: the identity-harm tier fires on a bullying message
that contains no crisis language. -/
theorem C3_priority_chain_witness :
    searchWB CRISIS_RE (_normalize_text "my classmates keep bullying me".toList) = false
    ∧ searchWB IDC_RE (_normalize_text "my classmates keep bullying me".toList) = true
    ∧ fallback_classify "my classmates keep bullying me"
        = ⟨"IDC", 9/10, [.str "Identity-based harm / bullying keywords"], false⟩ := by
  refine ⟨by decide, by decide, ?_⟩
  exact C3_priority_chain.2.1 "my classmates keep bullying me" (by decide) (by decide)

/-- C4: whenever the remote tier fails — the call raises, its text is not
parseable as JSON, or the parsed value is not an object (so its `.get`
raises inside the `try`) — the endpoint behaves exactly as with no remote
tier configured: it returns the rule classifier's result for the same
message with a success status, and the failure is never surfaced. -/
theorem C4_remote_failure_fallback :
    (∀ (role u : String) (body : Option JValue),
        classify_message role u body (some .raises) = classify_message role u body none)
    ∧ (∀ (role u : String) (body : Option JValue),
        classify_message role u body (some .badJSON) = classify_message role u body none)
    ∧ (∀ (role u : String) (body : Option JValue) (v : JValue), isObj v = false →
        classify_message role u body (some (.parsed v)) = classify_message role u body none)
    ∧ (∀ (u : String) (body : Option JValue) (fields : List (String × JValue)),
        dataOf body = .obj fields → messageOf fields ≠ "" →
        (classify_message "student" u body (some .raises)).outcome
          = .ok (fallback_classify (messageOf fields))) := by
  refine ⟨?_, ?_, ?_, ?_⟩
  · intro role u body
    exact classify_failure_eq_none role u body _ (Or.inl rfl)
  · intro role u body
    exact classify_failure_eq_none role u body _ (Or.inr (Or.inl rfl))
  · intro role u body v hv
    exact classify_failure_eq_none role u body _ (Or.inr (Or.inr ⟨v, rfl, hv⟩))
  · intro u body fields hb hm
    rw [classify_fallback_route u body _ fields hb hm (Or.inr (Or.inl rfl))]

/-- Witness for C4: a raising remote tier falls back to the rule result
for the message `"i feel lonely"`. -/
theorem C4_remote_failure_fallback_witness :
    dataOf (some (.obj [("message", .str "i feel lonely")]))
        = .obj [("message", .str "i feel lonely")]
    ∧ messageOf [("message", .str "i feel lonely")] ≠ ""
    ∧ (classify_message "student" "u" (some (.obj [("message", .str "i feel lonely")]))
          (some .raises)).outcome
        = .ok (fallback_classify (messageOf [("message", .str "i feel lonely")])) := by
  refine ⟨by rfl, by decide, ?_⟩
  exact C4_remote_failure_fallback.2.2.2 "u" (some (.obj [("message", .str "i feel lonely")]))
    [("message", .str "i feel lonely")] (by rfl) (by decide)

/-- C5 (counterexample): a truthy non-object JSON body (here the array
`[1]`) leaves the message missing, yet the endpoint does not reject with
the client error — `data.get("message")` raises an uncaught
`AttributeError`, surfacing as a server error, and no ticket is recorded. -/
theorem C5_counterexample :
    classify_message "student" "u" (some (.arr [.num 1])) none = ⟨.serverError, []⟩
    ∧ HTTPOutcome.serverError ≠ HTTPOutcome.badRequest :=
  ⟨by rfl, fun h => HTTPOutcome.noConfusion h⟩

/-- C5 (amended): for a student caller whose effective body (`data = body
or {}`) is a JSON object, the endpoint rejects with the client error iff
the stringified, trimmed `message` field is empty (in particular when the
field is absent); in that case no classification is attempted and no
ticket is recorded, and for any other message a classification result is
returned.  For a truthy non-object body, the message lookup instead
raises an unhandled exception (server error), not the client error. -/
theorem C5_message_validation :
    (∀ (u : String) (body : Option JValue) (remote : Option RemoteResult)
        (fields : List (String × JValue)), dataOf body = .obj fields →
        (((classify_message "student" u body remote).outcome = .badRequest)
            ↔ messageOf fields = "")
        ∧ (messageOf fields = "" →
            classify_message "student" u body remote = ⟨.badRequest, []⟩)
        ∧ (messageOf fields ≠ "" →
            ∃ r tks, classify_message "student" u body remote = ⟨.ok r, tks⟩))
    ∧ (∀ (u : String) (body : Option JValue) (remote : Option RemoteResult),
        isObj (dataOf body) = false →
        classify_message "student" u body remote = ⟨.serverError, []⟩) := by
  constructor
  · intro u body remote fields hb
    refine ⟨⟨?_, ?_⟩, ?_, ?_⟩
    · intro hout
      by_contra hm
      rcases classify_ok_of_nonempty u body remote fields hb hm with ⟨r, tks, heq⟩
      rw [heq] at hout
      exact HTTPOutcome.noConfusion hout
    · intro hm
      rw [classify_bad_request u body remote fields hb hm]
    · intro hm
      rw [classify_bad_request u body remote fields hb hm]
    · intro hm
      exact classify_ok_of_nonempty u body remote fields hb hm
  · intro u body remote h
    exact classify_server_error u body remote h

/-- Witness for C5: a whitespace-only message is rejected with the client
error and no ticket. -/
theorem C5_message_validation_witness :
    dataOf (some (.obj [("message", .str "   ")])) = .obj [("message", .str "   ")]
    ∧ messageOf [("message", .str "   ")] = ""
    ∧ classify_message "student" "u" (some (.obj [("message", .str "   ")])) none
        = ⟨.badRequest, []⟩ := by
  refine ⟨by rfl, by rfl, ?_⟩
  exact (C5_message_validation.1 "u" (some (.obj [("message", .str "   ")])) none
    [("message", .str "   ")] (by rfl)).2.1 (by rfl)

/-- C6 (counterexample): a JSON boolean confidence is non-numeric as a
JSON value, but Python's `isinstance(confidence, (int, float))` accepts it
(`bool` is an `int` subclass), so `true` yields confidence `1.0`, not the
claimed replacement `0.5`. -/
theorem C6_counterexample :
    (classify_message "student" "u" (some (.obj [("message", .str "hello")]))
        (some (.parsed (.obj [("confidence", .bool true)])))).outcome
      = .ok ⟨"OPEN", 1, [], false⟩
    ∧ isNum (JValue.bool true) = false
    ∧ (1 : ℚ) ≠ 1/2 := by
  refine ⟨?_, rfl, by norm_num⟩
  have hroute := classify_remote_route "u" (some (.obj [("message", .str "hello")]))
    [("message", .str "hello")] [("confidence", .bool true)] (by rfl) (by decide)
  rw [hroute]
  have hval : validateRemote [("confidence", JValue.bool true)]
      = ⟨"OPEN", pyMax 0 (pyMin 1 1), [], false⟩ := rfl
  rw [hval, pyClamp_eval_one]

/-- C6 (amended): every returned confidence lies in `[0, 1]`; an absent
confidence, or one that is neither a JSON number nor a JSON boolean, is
replaced with `0.5`; a JSON number is clamped into `[0, 1]` (not replaced
with `0.5`); a JSON boolean is treated as the Python int it subclasses,
giving `1.0` for `true` and `0.0` for `false`. -/
theorem C6_confidence_validation :
    (∀ (role u : String) (body : Option JValue) (remote : Option RemoteResult)
        (r : ClassificationResult) (tks : List Ticket),
        classify_message role u body remote = ⟨.ok r, tks⟩ →
          0 ≤ r.confidence ∧ r.confidence ≤ 1)
    ∧ (∀ rf : List (String × JValue), jGet rf "confidence" = none →
        (validateRemote rf).confidence = 1/2)
    ∧ (∀ (rf : List (String × JValue)) (v : JValue), jGet rf "confidence" = some v →
        isNum v = false → isBool v = false → (validateRemote rf).confidence = 1/2)
    ∧ (∀ (rf : List (String × JValue)) (q : ℚ), jGet rf "confidence" = some (.num q) →
        (validateRemote rf).confidence = pyMax 0 (pyMin 1 q))
    ∧ (∀ (rf : List (String × JValue)) (b : Bool), jGet rf "confidence" = some (.bool b) →
        (validateRemote rf).confidence = if b then 1 else 0) := by
  refine ⟨?_, ?_, ?_, ?_, ?_⟩
  · intro role u body remote r tks h
    rcases classify_ok_cases role u body remote r tks h with ⟨m, rfl⟩ | ⟨rf, rfl⟩
    · exact fallback_confidence_bounds m
    · exact validateRemote_confidence_bounds rf
  · intro rf hj
    rw [validateRemote_confidence, hj]
    exact pyClamp_eval_half
  · intro rf v hj hn hb
    rw [validateRemote_confidence, hj]
    rcases v with _ | b | q | s | xs | fs
    · exact pyClamp_eval_half
    · simp [isBool] at hb
    · simp [isNum] at hn
    · exact pyClamp_eval_half
    · exact pyClamp_eval_half
    · exact pyClamp_eval_half
  · intro rf q hj
    rw [validateRemote_confidence, hj]
    rfl
  · intro rf b hj
    rw [validateRemote_confidence, hj]
    cases b
    · exact pyClamp_eval_zero
    · exact pyClamp_eval_one

/-- Witness for C6: a boolean remote confidence flows through the
`isinstance` guard. -/
theorem C6_confidence_validation_witness :
    jGet [("confidence", JValue.bool true)] "confidence" = some (.bool true)
    ∧ (validateRemote [("confidence", JValue.bool true)]).confidence
        = if true then 1 else 0 := by
  refine ⟨by rfl, ?_⟩
  exact C6_confidence_validation.2.2.2.2 [("confidence", JValue.bool true)] true (by rfl)

/-- C7 (counterexample): the validation slices `reasons[:6]` without
inspecting elements, so a remote reasons list whose element is the number
`42` is returned as-is — the returned reasons contain a non-string. -/
theorem C7_counterexample :
    (classify_message "student" "u" (some (.obj [("message", .str "hello")]))
        (some (.parsed (.obj [("reasons", .arr [.num 42])])))).outcome
      = .ok ⟨"OPEN", 1/2, [.num 42], false⟩
    ∧ isStr (JValue.num 42) = false := by
  refine ⟨?_, rfl⟩
  have hroute := classify_remote_route "u" (some (.obj [("message", .str "hello")]))
    [("message", .str "hello")] [("reasons", .arr [.num 42])] (by rfl) (by decide)
  rw [hroute]
  have hval : validateRemote [("reasons", JValue.arr [JValue.num 42])]
      = ⟨"OPEN", pyMax 0 (pyMin 1 (1/2)), [.num 42], false⟩ := rfl
  rw [hval, pyClamp_eval_half]

/-- C7 (amended): every returned reasons list has at most 6 entries; an
absent or non-list reasons value is replaced with the empty list; a list
is truncated to its first 6 elements with no element-type check (an
element may be any JSON value); the rule tier's single reason is always a
string. -/
theorem C7_reasons_validation :
    (∀ (role u : String) (body : Option JValue) (remote : Option RemoteResult)
        (r : ClassificationResult) (tks : List Ticket),
        classify_message role u body remote = ⟨.ok r, tks⟩ →
          r.reasons.length ≤ 6)
    ∧ (∀ rf : List (String × JValue), jGet rf "reasons" = none →
        (validateRemote rf).reasons = [])
    ∧ (∀ (rf : List (String × JValue)) (v : JValue), jGet rf "reasons" = some v →
        isArr v = false → (validateRemote rf).reasons = [])
    ∧ (∀ (rf : List (String × JValue)) (xs : List JValue),
        jGet rf "reasons" = some (.arr xs) →
        (validateRemote rf).reasons = xs.take 6)
    ∧ (∀ m : String, (fallback_classify m).reasons.all isStr = true) := by
  refine ⟨?_, ?_, ?_, ?_, ?_⟩
  · intro role u body remote r tks h
    rcases classify_ok_cases role u body remote r tks h with ⟨m, rfl⟩ | ⟨rf, rfl⟩
    · exact (fallback_reasons_ok m).1
    · exact validateRemote_reasons_le rf
  · intro rf hj
    rw [validateRemote_reasons, hj]
    rfl
  · intro rf v hj hv
    rw [validateRemote_reasons, hj]
    rcases v with _ | b | q | s | xs | fs <;> simp_all [isArr]
  · intro rf xs hj
    rw [validateRemote_reasons, hj]
    rfl
  · intro m
    exact (fallback_reasons_ok m).2

/-- Witness for C7: a one-element numeric reasons list passes through the
slice untouched. -/
theorem C7_reasons_validation_witness :
    jGet [("reasons", JValue.arr [JValue.num 42])] "reasons"
        = some (.arr [JValue.num 42])
    ∧ (validateRemote [("reasons", JValue.arr [JValue.num 42])]).reasons
        = [JValue.num 42].take 6 := by
  refine ⟨by rfl, ?_⟩
  exact C7_reasons_validation.2.2.2.1 [("reasons", JValue.arr [JValue.num 42])]
    [JValue.num 42] (by rfl)

/-- C10: on the remote-success path `crisis` is coerced with Python
truthiness — any truthy JSON value (including the non-empty string
`"false"` and non-zero numbers) yields `crisis = true` and therefore
forces `department = COUNSEL`; only `false`, `null`/absent, `0`, and
empty values yield `crisis = false`. -/
theorem C10_crisis_truthiness :
    (∀ rf : List (String × JValue),
        (validateRemote rf).crisis = jTruthy ((jGet rf "crisis").getD (.bool false)))
    ∧ jTruthy (.str "false") = true
    ∧ jTruthy (.num 2) = true
    ∧ jTruthy (.bool false) = false
    ∧ jTruthy .null = false
    ∧ jTruthy (.num 0) = false
    ∧ jTruthy (.str "") = false
    ∧ jTruthy (.arr []) = false
    ∧ (∀ (u : String) (body : Option JValue) (fields rf : List (String × JValue)),
        dataOf body = .obj fields → messageOf fields ≠ "" →
        (classify_message "student" u body (some (.parsed (.obj rf)))).outcome
          = .ok (validateRemote rf))
    ∧ ((classify_message "student" "u" (some (.obj [("message", .str "hello")]))
          (some (.parsed (.obj
            [("department", .str "OPEN"), ("crisis", .str "false")])))).outcome
        = .ok ⟨"COUNSEL", 1/2, [], true⟩) := by
  refine ⟨validateRemote_crisis, by rfl, by decide, by rfl, by rfl, by decide, by rfl,
    by rfl, ?_, ?_⟩
  · intro u body fields rf hb hm
    rw [classify_remote_route u body fields rf hb hm]
  · have hroute := classify_remote_route "u" (some (.obj [("message", .str "hello")]))
      [("message", .str "hello")]
      [("department", .str "OPEN"), ("crisis", .str "false")] (by rfl) (by decide)
    rw [hroute]
    have hval : validateRemote [("department", JValue.str "OPEN"), ("crisis", JValue.str "false")]
        = ⟨"COUNSEL", pyMax 0 (pyMin 1 (1/2)), [], true⟩ := rfl
    rw [hval, pyClamp_eval_half]

/-- Witness for C10: the remote-success path returns exactly the
validated remote object. -/
theorem C10_crisis_truthiness_witness :
    dataOf (some (.obj [("message", .str "hello")])) = .obj [("message", .str "hello")]
    ∧ messageOf [("message", .str "hello")] ≠ ""
    ∧ (classify_message "student" "u" (some (.obj [("message", .str "hello")]))
          (some (.parsed (.obj [("crisis", .num 2)])))).outcome
        = .ok (validateRemote [("crisis", .num 2)]) := by
  refine ⟨by rfl, by decide, ?_⟩
  exact (C10_crisis_truthiness.2.2.2.2.2.2.2.2.1) "u"
    (some (.obj [("message", .str "hello")])) [("message", .str "hello")]
    [("crisis", .num 2)] (by rfl) (by decide)

end Classifier
